import Mathlib

set_option autoImplicit false

namespace TokenMonitorModel

/-- A repeating timer, modelling the fields of a Go time.Ticker that the
monitor uses: its period, the absolute time at which it next fires, and
whether it is currently generating ticks. NewTicker and Reset activate it,
Stop deactivates it. All times are naturals, in nanoseconds. -/
structure Ticker where
  period : Nat
  next : Nat
  active : Bool
deriving DecidableEq, Repr

/-- Method Stop of time.Ticker: tick generation ends; the tick channel is not
drained, so an already delivered tick stays receivable. -/
def Ticker.stop (t : Ticker) : Ticker :=
  { t with active := false }

/-- Method Reset of time.Ticker: installs a new period; the next tick arrives
one full new period after the moment of the call, independent of when the
previous tick fired, and a stopped ticker is restarted. -/
def Ticker.reset (_t : Ticker) (d : Nat) (now : Nat) : Ticker :=
  { period := d, next := now + d, active := true }

/-- The simplified TokenMonitor struct of the source. Function-valued fields
keep only their nil-ness: checkFunc and ProcessNotification are some unit
when a function has been assigned and none when the field still holds the Go
zero value nil. The cancellable context pair is modelled by the single flag
cancelled, which the Done channel of the context reflects. -/
structure TokenMonitor where
  ticker : Option Ticker
  checkFunc : Option Unit
  interval : Nat
  cancelled : Bool
  ProcessNotification : Option Unit
deriving DecidableEq, Repr

/-- One second in nanoseconds, the value of the Go expression 1 * time.Second. -/
def oneSecond : Nat := 1000000000

/-- NewTokenMonitor: a fresh not-yet-cancelled context, the interval defaulted
to one second, no ticker armed yet, and both function fields left at their
zero value nil; in particular ProcessNotification is not preset to a no-op. -/
def NewTokenMonitor : TokenMonitor :=
  { ticker := none
    checkFunc := none
    interval := oneSecond
    cancelled := false
    ProcessNotification := none }

/-- SetCheckFunc: installs a non-nil check function. -/
def TokenMonitor.SetCheckFunc (tm : TokenMonitor) : TokenMonitor :=
  { tm with checkFunc := some () }

/-- SetInterval: stores the new interval and, when the ticker pointer is not
nil, resets that same ticker in place; no new ticker is created. -/
def TokenMonitor.SetInterval (tm : TokenMonitor) (d : Nat) (now : Nat) : TokenMonitor :=
  let tm2 : TokenMonitor := { tm with interval := d }
  match tm2.ticker with
  | some t => { tm2 with ticker := some (t.reset d now) }
  | none => tm2

/-- Calling the Stop method through a possibly nil ticker pointer: on nil this
is a nil dereference, modelled as none, meaning a panic. -/
def tickerStopCall (p : Option Ticker) : Option (Option Ticker) :=
  match p with
  | some t => some (some t.stop)
  | none => none

/-- Method Stop of the monitor: as in the source, the call to the ticker Stop
method is guarded by a nil check on the ticker field, and then the context is
cancelled. A result of none would mean a panic escaped Stop. -/
def TokenMonitor.Stop (tm : TokenMonitor) : Option TokenMonitor :=
  match (if tm.ticker.isSome then tickerStopCall tm.ticker else some tm.ticker) with
  | none => none
  | some p => some { tm with ticker := p, cancelled := true }

/-- What a goroutine dispatched by the Run loop was asked to execute: the
periodic check, or the handler for one received message. -/
inductive TaskKind where
  | check
  | notify (msg : String)
deriving DecidableEq, Repr

/-- A goroutine spawned by the Run loop: what it runs, the time it was
dispatched, whether the function value it calls was non-nil at dispatch time,
and whether it has finished. A goroutine whose function value is nil can
never finish normally; running it panics. -/
structure Task where
  kind : TaskKind
  start : Nat
  handlerPresent : Bool
  done : Bool
deriving DecidableEq, Repr

/-- A configuration of the whole system: the monitor, the wall clock in
nanoseconds, the buffered contents and closed flag of notificationChan,
whether a tick is sitting in the capacity-one tick channel, the goroutines
dispatched so far in dispatch order, whether Run was called and whether its
loop has returned, whether some call to Stop has returned, whether the whole
process is still alive (an unrecovered panic in any goroutine kills the Go
process), how many tickers were ever created, and the wall-clock duration of
one check invocation. -/
structure Config where
  tm : TokenMonitor
  now : Nat
  buf : List String
  closed : Bool
  tickPending : Bool
  tasks : List Task
  runStarted : Bool
  returned : Bool
  stopReturned : Bool
  processAlive : Bool
  tickersCreated : Nat
  checkDuration : Nat
deriving DecidableEq, Repr

/-- The select cases of the Run loop only execute while the loop has been
started and has not yet returned. -/
def Config.loopActive (c : Config) : Bool :=
  c.runStarted && !c.returned

/-- The atomic events of an execution: the producer sends on or closes the
channel, the single call to Run arms the ticker and enters the loop, the
select statement takes one of its cases (receive a message, observe the
closed channel, consume a tick, observe cancellation), the ticker delivers a
tick, time passes, the public Stop and SetInterval methods are called, and a
dispatched goroutine finishes or panics. -/
inductive Ev where
  | send (m : String)
  | closeChan
  | runStart
  | selRecv
  | selClosed
  | selTick
  | selDone
  | tickArrive
  | advance (d : Nat)
  | stop
  | setInterval (d : Nat)
  | taskEnd (i : Nat)
  | taskPanic (i : Nat)
deriving DecidableEq, Repr

/-- One small step of the system. The result is none when the event is not
enabled at this configuration (its guard fails, or the process has already
died of an unrecovered panic, or the step itself would be a runtime panic).
Each case is read off the Go source: runStart executes time.NewTicker at the
stored interval; selRecv pops the first buffered message and spawns the
goroutine go tm.ProcessNotification(msg), recording whether that function
value was nil; selClosed fires when the channel is closed and drained and
makes the loop return; selTick consumes a pending tick and spawns the check
goroutine only when checkFunc is non-nil; selDone fires once the context is
cancelled and makes the loop return; tickArrive delivers a tick at or after
its scheduled time into the capacity-one channel, dropping it when one is
already pending; stop runs the Stop method; setInterval runs SetInterval,
whose Reset would panic on a zero duration, hence the guard; taskEnd lets a
dispatched goroutine finish, which a nil function value never does and which
a check does only after checkDuration has elapsed since its dispatch;
taskPanic is an unrecovered panic inside a dispatched goroutine, which under
Go semantics terminates the entire process. -/
def step (c : Config) (e : Ev) : Option Config :=
  if !c.processAlive then none else
  match e with
  | .send m =>
      if c.closed then none
      else some { c with buf := c.buf ++ [m] }
  | .closeChan =>
      if c.closed then none
      else some { c with closed := true }
  | .runStart =>
      if c.runStarted then none
      else if c.tm.interval = 0 then none
      else
        let t : Ticker :=
          { period := c.tm.interval, next := c.now + c.tm.interval, active := true }
        some { c with
          tm := { c.tm with ticker := some t }
          runStarted := true
          tickersCreated := c.tickersCreated + 1 }
  | .selRecv =>
      if !c.loopActive then none else
      match c.buf with
      | [] => none
      | m :: rest =>
          some { c with
            buf := rest
            tasks := c.tasks ++
              [{ kind := .notify m, start := c.now,
                 handlerPresent := c.tm.ProcessNotification.isSome, done := false }] }
  | .selClosed =>
      if !c.loopActive then none else
      if c.closed && c.buf.isEmpty then some { c with returned := true } else none
  | .selTick =>
      if !c.loopActive then none else
      if !c.tickPending then none else
      match c.tm.checkFunc with
      | some _ =>
          some { c with
            tickPending := false
            tasks := c.tasks ++
              [{ kind := .check, start := c.now, handlerPresent := true, done := false }] }
      | none => some { c with tickPending := false }
  | .selDone =>
      if !c.loopActive then none else
      if c.tm.cancelled then some { c with returned := true } else none
  | .tickArrive =>
      match c.tm.ticker with
      | some t =>
          if t.active && decide (t.next ≤ c.now) then
            let t2 : Ticker := { t with next := t.next + t.period }
            some { c with
              tm := { c.tm with ticker := some t2 }
              tickPending := true }
          else none
      | none => none
  | .advance d => some { c with now := c.now + d }
  | .stop =>
      match c.tm.Stop with
      | some tm2 => some { c with tm := tm2, stopReturned := true }
      | none => none
  | .setInterval d =>
      if d = 0 then none
      else some { c with tm := c.tm.SetInterval d c.now }
  | .taskEnd i =>
      match c.tasks[i]? with
      | some t =>
          if t.done then none
          else if !t.handlerPresent then none
          else if t.kind = TaskKind.check ∧ c.now < t.start + c.checkDuration then none
          else some { c with tasks := c.tasks.set i { t with done := true } }
      | none => none
  | .taskPanic i =>
      match c.tasks[i]? with
      | some t =>
          if t.done then none
          else some { c with processAlive := false }
      | none => none

/-- Execute a list of events in order; none as soon as one is not enabled. -/
def run (c : Config) : List Ev → Option Config
  | [] => some c
  | e :: tr =>
      match step c e with
      | some c2 => run c2 tr
      | none => none

/-- A fresh configuration around a given monitor: time zero, empty open
channel, no pending tick, nothing dispatched, Run not yet called, process
alive, no ticker created yet. -/
def initConfig (tm : TokenMonitor) (checkDuration : Nat) : Config :=
  { tm := tm
    now := 0
    buf := []
    closed := false
    tickPending := false
    tasks := []
    runStarted := false
    returned := false
    stopReturned := false
    processAlive := true
    tickersCreated := 0
    checkDuration := checkDuration }

/-- The payloads of the notification-handler goroutines dispatched so far, in
dispatch order. -/
def notifyPayloads (ts : List Task) : List String :=
  ts.filterMap (fun t =>
    match t.kind with
    | .notify m => some m
    | .check => none)

/-- The messages sent on the channel by the events of a trace, in order. -/
def sentIn (tr : List Ev) : List String :=
  tr.filterMap (fun e =>
    match e with
    | .send m => some m
    | _ => none)

/-- The ticker generates no further ticks: either the ticker pointer is nil or
the ticker has been stopped. -/
def tickerQuiet (c : Config) : Prop :=
  ∀ t, c.tm.ticker = some t → t.active = false

/-- The number of dispatched check goroutines not yet finished. -/
def inFlightChecks (c : Config) : Nat :=
  (c.tasks.filter (fun t => t.kind == TaskKind.check && !t.done)).length

/-- Invariant tying the number of created tickers to whether Run has begun. -/
def tickersInv (c : Config) : Prop :=
  c.tickersCreated = (if c.runStarted then 1 else 0)

/-- The canonical prompt schedule over two periods: Run starts, and twice in a
row a full period elapses, the tick arrives, and the loop consumes it at
once, dispatching the check. -/
def overlapTrace (p : Nat) : List Ev :=
  [Ev.runStart, Ev.advance p, Ev.tickArrive, Ev.selTick,
   Ev.advance p, Ev.tickArrive, Ev.selTick]

/-- A configuration whose loop has returned, used to instantiate C4. -/
def c4returned : Config :=
  { initConfig NewTokenMonitor 0 with runStarted := true, returned := true }

/-- A configuration with the channel closed and drained, used to instantiate C4. -/
def c4closed : Config :=
  { initConfig NewTokenMonitor 0 with runStarted := true, closed := true }

/-- The configuration reached from a fresh monitor by one Stop call. -/
def c5stopped : Config :=
  { initConfig NewTokenMonitor 0 with
    tm := { NewTokenMonitor with cancelled := true }
    stopReturned := true }

/-- A running configuration with a nil check function and a pending tick. -/
def c6tick : Config :=
  { initConfig NewTokenMonitor 0 with runStarted := true, tickPending := true }

/-- A configuration with one dispatched, still running check goroutine. -/
def c7pre : Config :=
  { initConfig NewTokenMonitor 0 with
    tasks := [{ kind := TaskKind.check, start := 0, handlerPresent := true, done := false }] }

/-- The configuration after the single event sending the message a. -/
def cSentA : Config :=
  { initConfig NewTokenMonitor 0 with buf := ["a"] }

/-- The configuration after the single Run-start event on a fresh monitor. -/
def c8run : Config :=
  { initConfig NewTokenMonitor 0 with
    tm := { NewTokenMonitor with
      ticker := some { period := oneSecond, next := oneSecond, active := true } }
    runStarted := true
    tickersCreated := 1 }

/-- The monitor state after the two tick rounds of the overlap schedule at
interval p: ticker armed for its third fire. -/
def tm9 (p : Nat) : TokenMonitor :=
  { ticker := some { period := p, next := p + p + p, active := true }
    checkFunc := some ()
    interval := p
    cancelled := false
    ProcessNotification := none }

/-- The configuration after the overlap schedule at interval p with check
duration D: two check goroutines dispatched at times p and p + p, neither
finished. -/
def c9final (p D : Nat) : Config :=
  { tm := tm9 p
    now := p + p
    buf := []
    closed := false
    tickPending := false
    tasks := [{ kind := TaskKind.check, start := p, handlerPresent := true, done := false },
              { kind := TaskKind.check, start := p + p, handlerPresent := true, done := false }]
    runStarted := true
    returned := false
    stopReturned := false
    processAlive := true
    tickersCreated := 1
    checkDuration := D }

/-- C1: the claim is that an unset ProcessNotification field is safe, because
the constructor presets a no-op or the dispatch site checks for nil. The code
does neither: NewTokenMonitor leaves the field nil, the loop dispatches
go tm.ProcessNotification(msg) unguarded, and the spawned goroutine calls a
nil function value, an unrecovered panic that kills the process. This theorem
evaluates the code at the failing input: a monitor fresh from NewTokenMonitor
that receives one message foo while Run is active. The dispatched goroutine
carries a nil function (handlerPresent false), can never finish normally
(taskEnd is disabled), and running it panics, leaving the process dead. -/
theorem C1_unset_handler_dispatch_panics :
    NewTokenMonitor.ProcessNotification = none ∧
    ((run (initConfig NewTokenMonitor 0)
        [Ev.send "foo", Ev.runStart, Ev.selRecv]).map
      (fun c => c.tasks.map Task.handlerPresent) = some [false]) ∧
    ((run (initConfig NewTokenMonitor 0)
        [Ev.send "foo", Ev.runStart, Ev.selRecv]).bind
      (fun c => step c (Ev.taskEnd 0)) = none) ∧
    ((run (initConfig NewTokenMonitor 0)
        [Ev.send "foo", Ev.runStart, Ev.selRecv, Ev.taskPanic 0]).map
      Config.processAlive = some false) :=
  ⟨rfl, by decide, by decide, by decide⟩

/-- C10: Stop is safe even when Run was never invoked, and safe to repeat.
The nil presence check on the ticker field means Stop never dereferences a
nil ticker pointer (Stop never returns none, which would model a panic), a
monitor with no ticker is simply cancelled, and a second Stop call also
succeeds and leaves the cancelled state unchanged at true. -/
theorem C10_stop_safe (tm : TokenMonitor) :
    (tm.Stop).isSome = true ∧
    (tm.ticker = none → tm.Stop = some { tm with cancelled := true }) ∧
    (∀ tm2, tm.Stop = some tm2 → tm2.cancelled = true ∧
      ∃ tm3, tm2.Stop = some tm3 ∧ tm3.cancelled = tm2.cancelled) := by
  obtain ⟨tk, cf, iv, cl, pn⟩ := tm
  cases tk with
  | none =>
      refine ⟨rfl, ?_, ?_⟩
      · intro _
        rfl
      · intro tm2 h2
        cases h2
        exact ⟨rfl, ⟨_, rfl, rfl⟩⟩
  | some t =>
      refine ⟨rfl, ?_, ?_⟩
      · intro h
        exact absurd h (by simp)
      · intro tm2 h2
        cases h2
        exact ⟨rfl, ⟨_, rfl, rfl⟩⟩

/-- Witness for C10 at the concrete monitor returned by NewTokenMonitor. -/
theorem C10_stop_safe_witness :
    (NewTokenMonitor.Stop).isSome = true ∧
    NewTokenMonitor.Stop = some { NewTokenMonitor with cancelled := true } :=
  ⟨(C10_stop_safe NewTokenMonitor).1, (C10_stop_safe NewTokenMonitor).2.1 rfl⟩

/-- A successful Stop always cancels the context and leaves the ticker, if
any, stopped. -/
theorem Stop_spec (tm tm2 : TokenMonitor) (h : tm.Stop = some tm2) :
    tm2.cancelled = true ∧ ∀ t, tm2.ticker = some t → t.active = false := by
  obtain ⟨tk, cf, iv, cl, pn⟩ := tm
  cases tk with
  | none =>
      cases h
      exact ⟨rfl, fun t ht => nomatch ht⟩
  | some t0 =>
      cases h
      refine ⟨rfl, fun t ht => ?_⟩
      cases ht
      rfl

/-- SetInterval always stores the requested interval. -/
theorem SetInterval_interval (tm : TokenMonitor) (d now : Nat) :
    (tm.SetInterval d now).interval = d := by
  rcases hti : tm.ticker with _ | t <;> simp [TokenMonitor.SetInterval, hti]

/-- C3: SetInterval stores the new interval; when the timer has already been
armed by Run it rearms that same ticker in place, scheduling the next fire
exactly d after the moment of the call, independent of when the previous
tick fired; when Run has not yet armed the timer, only the stored interval
changes, and a later Run arms the ticker at the stored value. -/
theorem C3_setInterval_rearms (c : Config) (d : Nat) (hd : 0 < d)
    (ha : c.processAlive = true) :
    ∃ c2, step c (Ev.setInterval d) = some c2 ∧
      c2.tm.interval = d ∧
      (∀ t, c.tm.ticker = some t →
        c2.tm.ticker = some { period := d, next := c.now + d, active := true }) ∧
      (c.tm.ticker = none →
        c2.tm.ticker = none ∧
        ∀ c3, step c2 Ev.runStart = some c3 →
          c3.tm.ticker = some { period := d, next := c2.now + d, active := true }) := by
  have hd0 : ¬ d = 0 := Nat.pos_iff_ne_zero.mp hd
  refine ⟨{ c with tm := c.tm.SetInterval d c.now }, ?_, ?_, ?_, ?_⟩
  · simp [step, ha, hd0]
  · rcases hti : c.tm.ticker with _ | t <;>
      simp [TokenMonitor.SetInterval, hti]
  · intro t ht
    simp [TokenMonitor.SetInterval, ht, Ticker.reset]
  · intro hnone
    have htk : ({ c with tm := c.tm.SetInterval d c.now } : Config).tm.ticker = none := by
      simp [TokenMonitor.SetInterval, hnone]
    refine ⟨htk, ?_⟩
    intro c3 h3
    simp only [step] at h3
    split at h3
    · exact absurd h3 (by simp)
    · split at h3
      · exact absurd h3 (by simp)
      · split at h3
        · exact absurd h3 (by simp)
        · cases h3
          simp [SetInterval_interval]

/-- Witness for C3 at a fresh monitor and the interval 5. -/
theorem C3_setInterval_rearms_witness :
    ∃ c2, step (initConfig NewTokenMonitor 0) (Ev.setInterval 5) = some c2 ∧
      c2.tm.interval = 5 ∧
      (∀ t, (initConfig NewTokenMonitor 0).tm.ticker = some t →
        c2.tm.ticker = some
          { period := 5, next := (initConfig NewTokenMonitor 0).now + 5, active := true }) ∧
      ((initConfig NewTokenMonitor 0).tm.ticker = none →
        c2.tm.ticker = none ∧
        ∀ c3, step c2 Ev.runStart = some c3 →
          c3.tm.ticker = some { period := 5, next := c2.now + 5, active := true }) :=
  C3_setInterval_rearms (initConfig NewTokenMonitor 0) 5 (by decide) rfl

/-- Any step that flips returned to true is the observation of the closed
channel or of the cancellation signal, and such a step dispatches nothing. -/
theorem step_returned_flip (c : Config) (e : Ev) (c2 : Config) (h : step c e = some c2)
    (hf : c.returned = false) (ht : c2.returned = true) :
    (e = Ev.selClosed ∨ e = Ev.selDone) ∧ c2.tasks = c.tasks := by
  cases e <;> simp only [step, Config.loopActive] at h <;>
    (repeat' split at h) <;>
    (try injection h with h) <;> (try subst h) <;> simp_all

/-- C4: the loop returns exactly on observing the closed source or the
cancellation signal: any step that flips returned is selClosed or selDone
and dispatches nothing on the way out, and once returned the loop executes
none of its select cases, in particular it processes no further timer tick. -/
theorem C4_return_only_closed_or_done (c : Config) :
    (∀ e c2, step c e = some c2 → c.returned = false → c2.returned = true →
      (e = Ev.selClosed ∨ e = Ev.selDone) ∧ c2.tasks = c.tasks) ∧
    (c.returned = true →
      step c Ev.selRecv = none ∧ step c Ev.selClosed = none ∧
      step c Ev.selTick = none ∧ step c Ev.selDone = none) := by
  constructor
  · intro e c2 h hf ht
    exact step_returned_flip c e c2 h hf ht
  · intro hr
    refine ⟨?_, ?_, ?_, ?_⟩ <;> simp [step, Config.loopActive, hr]

/-- Witness for C4: a concrete closed-channel return step and a concrete
returned configuration in which every select case is disabled. -/
theorem C4_return_only_closed_or_done_witness :
    ((Ev.selClosed = Ev.selClosed ∨ Ev.selClosed = Ev.selDone) ∧
      ({ c4closed with returned := true } : Config).tasks = c4closed.tasks) ∧
    (step c4returned Ev.selRecv = none ∧ step c4returned Ev.selClosed = none ∧
      step c4returned Ev.selTick = none ∧ step c4returned Ev.selDone = none) :=
  ⟨(C4_return_only_closed_or_done c4closed).1 Ev.selClosed
      { c4closed with returned := true } (by decide) rfl rfl,
    (C4_return_only_closed_or_done c4returned).2 rfl⟩

/-- C6: with a nil check function, a pending tick is consumed as a pure
no-op: the step succeeds, dispatches no goroutine, raises no panic, and
leaves the monitor, in particular its still armed ticker, unchanged, so the
timer keeps firing. -/
theorem C6_nil_checkFunc_tick_noop (c : Config) (hcf : c.tm.checkFunc = none)
    (ha : c.processAlive = true) (hr : c.runStarted = true) (hnr : c.returned = false)
    (hp : c.tickPending = true) :
    step c Ev.selTick = some { c with tickPending := false } ∧
    ∀ c2, step c Ev.selTick = some c2 →
      c2.tasks = c.tasks ∧ c2.processAlive = true ∧ c2.tm = c.tm := by
  have h1 : step c Ev.selTick = some { c with tickPending := false } := by
    simp [step, Config.loopActive, hcf, ha, hr, hnr, hp]
  refine ⟨h1, ?_⟩
  intro c2 h2
  rw [h1] at h2
  cases h2
  exact ⟨rfl, ha, rfl⟩

/-- Witness for C6 at a concrete running configuration. -/
theorem C6_nil_checkFunc_tick_noop_witness :
    step c6tick Ev.selTick = some { c6tick with tickPending := false } :=
  (C6_nil_checkFunc_tick_noop c6tick rfl rfl rfl rfl rfl).1

/-- C7 counterexample: a concrete execution in which a check goroutine is
dispatched from a tick and then panics unrecovered. Afterwards the process is
dead and every select case of the loop is disabled, refuting that the panic
stays confined to the invocation while the core loop keeps multiplexing its
three event sources. -/
theorem C7_counterexample_panic_reaches_loop :
    ((run (initConfig NewTokenMonitor.SetCheckFunc 7)
        [Ev.runStart, Ev.advance oneSecond, Ev.tickArrive, Ev.selTick, Ev.taskPanic 0]).map
      (fun c => (c.processAlive, c.tasks.length)) = some (false, 1)) ∧
    ((run (initConfig NewTokenMonitor.SetCheckFunc 7)
        [Ev.runStart, Ev.advance oneSecond, Ev.tickArrive, Ev.selTick, Ev.taskPanic 0]).bind
      (fun c => step c Ev.selTick) = none) ∧
    ((run (initConfig NewTokenMonitor.SetCheckFunc 7)
        [Ev.runStart, Ev.advance oneSecond, Ev.tickArrive, Ev.selTick, Ev.taskPanic 0]).bind
      (fun c => step c Ev.selRecv) = none) ∧
    ((run (initConfig NewTokenMonitor.SetCheckFunc 7)
        [Ev.runStart, Ev.advance oneSecond, Ev.tickArrive, Ev.selTick, Ev.taskPanic 0]).bind
      (fun c => step c Ev.selDone) = none) :=
  ⟨by decide, by decide, by decide, by decide⟩

/-- C7 amended: the dispatch sites go tm.ProcessNotification(msg) and
go tm.checkFunc(ctx) install no recover, so an unrecovered panic inside a
dispatched goroutine terminates the whole Go process; after it no event at
all can step, in particular the control loop multiplexes nothing further. -/
theorem C7_amended_panic_fatal (c : Config) (i : Nat) (c2 : Config)
    (h : step c (Ev.taskPanic i) = some c2) :
    c2.processAlive = false ∧ ∀ e, step c2 e = none := by
  have hc2 : c2 = { c with processAlive := false } := by
    simp only [step] at h
    repeat' split at h
    all_goals first
      | exact Option.noConfusion h
      | (injection h with h; subst h; rfl)
  subst hc2
  refine ⟨rfl, ?_⟩
  intro e
  simp [step]

/-- Witness for C7 amended at a concrete panicking check goroutine. -/
theorem C7_amended_panic_fatal_witness :
    ({ c7pre with processAlive := false } : Config).processAlive = false ∧
    step { c7pre with processAlive := false } Ev.selTick = none :=
  ⟨(C7_amended_panic_fatal c7pre 0 { c7pre with processAlive := false } (by decide)).1,
    (C7_amended_panic_fatal c7pre 0 { c7pre with processAlive := false } (by decide)).2
      Ev.selTick⟩

/-- C5 counterexample: the message foo is buffered when Stop is called and
Stop has already returned, yet the loop then selects the receive case and
initiates a handler dispatch for foo: a notification dispatch initiated by
the control loop after Stop returned. -/
theorem C5_counterexample_dispatch_after_stop :
    ((run (initConfig NewTokenMonitor 0) [Ev.send "foo", Ev.runStart, Ev.stop]).map
      (fun c => (c.stopReturned, c.tasks.length)) = some (true, 0)) ∧
    ((run (initConfig NewTokenMonitor 0)
        [Ev.send "foo", Ev.runStart, Ev.stop, Ev.selRecv]).map
      (fun c => (c.stopReturned, notifyPayloads c.tasks)) = some (true, ["foo"])) :=
  ⟨by decide, by decide⟩

/-- A quiet ticker delivers no tick. -/
theorem tickArrive_quiet_none (c : Config) (hq : tickerQuiet c) :
    step c Ev.tickArrive = none := by
  rcases hti : c.tm.ticker with _ | t
  · simp [step, hti]
  · simp [step, hti, hq t hti]

/-- Every event except SetInterval and a Run start preserves a quiet ticker:
Stop keeps it stopped, a tick cannot arrive from it, and nothing else
touches the monitor record. -/
theorem step_tickerQuiet (c : Config) (e : Ev) (c2 : Config) (h : step c e = some c2)
    (hq : tickerQuiet c) (hsi : ∀ d, e ≠ Ev.setInterval d) (hr : e ≠ Ev.runStart) :
    tickerQuiet c2 := by
  cases e with
  | setInterval d => exact absurd rfl (hsi d)
  | runStart => exact absurd rfl hr
  | tickArrive =>
      rw [tickArrive_quiet_none c hq] at h
      exact nomatch h
  | stop =>
      rcases hstop : c.tm.Stop with _ | tm2
      · simp [step, hstop] at h
      · simp only [step, hstop] at h
        split at h
        · exact nomatch h
        · injection h with h
          subst h
          intro t ht
          exact (Stop_spec c.tm tm2 hstop).2 t ht
  | send m =>
      simp only [step] at h
      repeat' split at h
      all_goals first
        | exact Option.noConfusion h
        | (injection h with h; subst h; exact fun t ht => hq t ht)
  | closeChan =>
      simp only [step] at h
      repeat' split at h
      all_goals first
        | exact Option.noConfusion h
        | (injection h with h; subst h; exact fun t ht => hq t ht)
  | selRecv =>
      simp only [step, Config.loopActive] at h
      repeat' split at h
      all_goals first
        | exact Option.noConfusion h
        | (injection h with h; subst h; exact fun t ht => hq t ht)
  | selClosed =>
      simp only [step, Config.loopActive] at h
      repeat' split at h
      all_goals first
        | exact Option.noConfusion h
        | (injection h with h; subst h; exact fun t ht => hq t ht)
  | selTick =>
      simp only [step, Config.loopActive] at h
      repeat' split at h
      all_goals first
        | exact Option.noConfusion h
        | (injection h with h; subst h; exact fun t ht => hq t ht)
  | selDone =>
      simp only [step, Config.loopActive] at h
      repeat' split at h
      all_goals first
        | exact Option.noConfusion h
        | (injection h with h; subst h; exact fun t ht => hq t ht)
  | advance d =>
      simp only [step] at h
      repeat' split at h
      all_goals first
        | exact Option.noConfusion h
        | (injection h with h; subst h; exact fun t ht => hq t ht)
  | taskEnd i =>
      simp only [step] at h
      repeat' split at h
      all_goals first
        | exact Option.noConfusion h
        | (injection h with h; subst h; exact fun t ht => hq t ht)
  | taskPanic i =>
      simp only [step] at h
      repeat' split at h
      all_goals first
        | exact Option.noConfusion h
        | (injection h with h; subst h; exact fun t ht => hq t ht)

/-- Marking one goroutine finished changes no dispatched payload. -/
theorem notifyPayloads_set_done (ts : List Task) (i : Nat) (t : Task)
    (hi : ts[i]? = some t) :
    notifyPayloads (ts.set i { t with done := true }) = notifyPayloads ts := by
  induction ts generalizing i with
  | nil => simp at hi
  | cons a l ih =>
      cases i with
      | zero =>
          have ha : a = t := by simpa using hi
          subst ha
          simp [notifyPayloads, List.filterMap_cons]
      | succ n =>
          have hi2 : l[n]? = some t := by simpa using hi
          have := ih n hi2
          simp only [notifyPayloads] at this ⊢
          rw [List.set_cons_succ, List.filterMap_cons, List.filterMap_cons, this]

/-- Once the loop has returned, no step initiates a dispatch: the task list
keeps its length and its payloads, and returned stays true. -/
theorem step_after_return (c : Config) (e : Ev) (c2 : Config) (h : step c e = some c2)
    (hr : c.returned = true) :
    c2.tasks.length = c.tasks.length ∧
    notifyPayloads c2.tasks = notifyPayloads c.tasks ∧
    c2.returned = true := by
  cases e
  case taskEnd i =>
    rcases hti : c.tasks[i]? with _ | t
    · simp only [step, hti] at h
      repeat' split at h
      all_goals exact Option.noConfusion h
    · simp only [step, hti] at h
      repeat' split at h
      all_goals first
        | exact Option.noConfusion h
        | (injection h with h; subst h;
           exact ⟨by simp, notifyPayloads_set_done c.tasks i t hti, hr⟩)
  case selRecv => simp [step, Config.loopActive, hr] at h
  case selClosed => simp [step, Config.loopActive, hr] at h
  case selTick => simp [step, Config.loopActive, hr] at h
  case selDone => simp [step, Config.loopActive, hr] at h
  all_goals
    simp only [step] at h
  all_goals
    (repeat' split at h) <;>
      first
        | exact Option.noConfusion h
        | (injection h with h; subst h; exact ⟨rfl, rfl, hr⟩)

/-- C5 amended: a returning Stop call leaves the context cancelled and the
ticker stopped, so no further tick is ever generated as long as no later
SetInterval or Run call rearms the ticker, and once the loop observes
closure or cancellation and returns it initiates no further dispatch. What
remains possible, as the counterexample shows, is the loop dispatching an
already-buffered notification between the return of Stop and its own
observation of cancellation. -/
theorem C5_amended_no_dispatch_after_return (c c2 : Config)
    (h : step c Ev.stop = some c2) :
    (c2.stopReturned = true ∧ c2.tm.cancelled = true ∧ tickerQuiet c2) ∧
    (∀ c3, tickerQuiet c3 → step c3 Ev.tickArrive = none) ∧
    (∀ c3 e c4, step c3 e = some c4 → tickerQuiet c3 →
      (∀ d, e ≠ Ev.setInterval d) → e ≠ Ev.runStart → tickerQuiet c4) ∧
    (∀ c3 e c4, step c3 e = some c4 → c3.returned = true →
      c4.tasks.length = c3.tasks.length ∧
      notifyPayloads c4.tasks = notifyPayloads c3.tasks) := by
  refine ⟨?_, fun c3 hq => tickArrive_quiet_none c3 hq,
    fun c3 e c4 h3 hq hsi hrs => step_tickerQuiet c3 e c4 h3 hq hsi hrs,
    fun c3 e c4 h3 hrt => ⟨(step_after_return c3 e c4 h3 hrt).1,
      (step_after_return c3 e c4 h3 hrt).2.1⟩⟩
  rcases hstop : c.tm.Stop with _ | tm2
  · simp [step, hstop] at h
  · simp only [step, hstop] at h
    split at h
    · exact nomatch h
    · injection h with h
      subst h
      exact ⟨rfl, (Stop_spec c.tm tm2 hstop).1,
        fun t ht => (Stop_spec c.tm tm2 hstop).2 t ht⟩

/-- Witness for C5 amended at the concrete Stop step on a fresh monitor. -/
theorem C5_amended_witness :
    c5stopped.stopReturned = true ∧ c5stopped.tm.cancelled = true :=
  ⟨(C5_amended_no_dispatch_after_return (initConfig NewTokenMonitor 0) c5stopped
      (by decide)).1.1,
    (C5_amended_no_dispatch_after_return (initConfig NewTokenMonitor 0) c5stopped
      (by decide)).1.2.1⟩

/-- C2 counterexample: foo is sent before Stop is called, yet this complete
execution ends with the loop returned on the cancellation signal, foo still
buffered and no handler dispatch at all: the message never triggers an
invocation, because the select statement may observe cancellation while the
buffer is non-empty, and a returned loop receives nothing further. -/
theorem C2_counterexample_message_dropped :
    ((run (initConfig NewTokenMonitor 0)
        [Ev.send "foo", Ev.runStart, Ev.stop, Ev.selDone]).map
      (fun c => (c.returned, c.buf, notifyPayloads c.tasks)) =
        some (true, ["foo"], [])) ∧
    ((run (initConfig NewTokenMonitor 0)
        [Ev.send "foo", Ev.runStart, Ev.stop, Ev.selDone]).bind
      (fun c => step c Ev.selRecv) = none) :=
  ⟨by decide, by decide⟩

/-- sentIn distributes over cons. -/
theorem sentIn_cons (e : Ev) (tr : List Ev) :
    sentIn (e :: tr) = sentIn [e] ++ sentIn tr := by
  cases e <;> simp [sentIn]

/-- One step extends the dispatched payloads plus the buffered messages by
exactly the messages the event sends: a receive moves one message from the
buffer to the dispatch log, a send appends to the buffer, nothing else
touches either. -/
theorem step_notifySent (c : Config) (e : Ev) (c2 : Config) (h : step c e = some c2) :
    notifyPayloads c2.tasks ++ c2.buf =
      (notifyPayloads c.tasks ++ c.buf) ++ sentIn [e] := by
  cases e
  case taskEnd i =>
    rcases hti : c.tasks[i]? with _ | t
    · simp only [step, hti] at h
      repeat' split at h
      all_goals exact Option.noConfusion h
    · simp only [step, hti] at h
      repeat' split at h
      all_goals first
        | exact Option.noConfusion h
        | (injection h with h; subst h;
           simp [sentIn, notifyPayloads_set_done c.tasks i t hti])
  all_goals
    simp only [step, Config.loopActive] at h
  all_goals
    (repeat' split at h) <;>
      first
        | exact Option.noConfusion h
        | (injection h with h; subst h;
           simp [*, sentIn, notifyPayloads, List.filterMap_append])

/-- Over a whole execution, the dispatched payloads followed by the remaining
buffer are the initial payloads and buffer followed by all sent messages. -/
theorem run_notifySent (c : Config) (tr : List Ev) (c2 : Config)
    (h : run c tr = some c2) :
    notifyPayloads c2.tasks ++ c2.buf =
      (notifyPayloads c.tasks ++ c.buf) ++ sentIn tr := by
  induction tr generalizing c with
  | nil =>
      simp only [run] at h
      injection h with h
      subst h
      simp [sentIn]
  | cons e tr ih =>
      simp only [run] at h
      rcases hs : step c e with _ | c1
      · rw [hs] at h
        exact Option.noConfusion h
      · rw [hs] at h
        have h1 := step_notifySent c e c1 hs
        have h2 := ih c1 h
        rw [sentIn_cons, h2, h1]
        simp

/-- After the loop has returned, no continuation of the execution changes the
dispatched payloads. -/
theorem run_after_return (c : Config) (tr : List Ev) (c2 : Config)
    (h : run c tr = some c2) (hr : c.returned = true) :
    c2.returned = true ∧ notifyPayloads c2.tasks = notifyPayloads c.tasks := by
  induction tr generalizing c with
  | nil =>
      simp only [run] at h
      injection h with h
      subst h
      exact ⟨hr, rfl⟩
  | cons e tr ih =>
      simp only [run] at h
      rcases hs : step c e with _ | c1
      · rw [hs] at h
        exact Option.noConfusion h
      · rw [hs] at h
        obtain ⟨hlen, hpay, hret⟩ := step_after_return c e c1 hs hr
        obtain ⟨h4, h5⟩ := ih c1 h hret
        exact ⟨h4, h5.trans hpay⟩

/-- C2 amended: in every execution from a fresh configuration, the payloads
dispatched to the handler followed by the messages still buffered are
exactly the messages sent, in order: every message the loop receives before
it observes closure or cancellation triggers exactly one dispatch with its
own payload, none twice, none of the received ones dropped; and once the
loop has returned, the dispatched payloads never change again, so messages
still buffered at that point are dropped. -/
theorem C2_amended_received_exactly_once (tm : TokenMonitor) (D : Nat)
    (tr : List Ev) (c2 : Config) (h : run (initConfig tm D) tr = some c2) :
    notifyPayloads c2.tasks ++ c2.buf = sentIn tr ∧
    (c2.returned = true → ∀ tr2 c3, run c2 tr2 = some c3 →
      notifyPayloads c3.tasks = notifyPayloads c2.tasks) := by
  constructor
  · have h1 := run_notifySent (initConfig tm D) tr c2 h
    simpa [initConfig, notifyPayloads] using h1
  · intro hret tr2 c3 h3
    exact (run_after_return c2 tr2 c3 h3 hret).2

/-- Witness for C2 amended on the one-event trace that sends the message a. -/
theorem C2_amended_witness :
    notifyPayloads cSentA.tasks ++ cSentA.buf = sentIn [Ev.send "a"] :=
  (C2_amended_received_exactly_once NewTokenMonitor 0 [Ev.send "a"] cSentA (by decide)).1

/-- Each step keeps the ticker count in lockstep with whether Run began. -/
theorem step_tickersInv (c : Config) (e : Ev) (c2 : Config) (h : step c e = some c2)
    (hI : tickersInv c) : tickersInv c2 := by
  cases e
  all_goals
    simp only [step, Config.loopActive] at h
  all_goals
    (repeat' split at h) <;>
      first
        | exact Option.noConfusion h
        | (injection h with h; subst h; simp_all [tickersInv])

/-- The lockstep invariant holds along whole executions. -/
theorem run_tickersInv (c : Config) (tr : List Ev) (c2 : Config)
    (h : run c tr = some c2) (hI : tickersInv c) : tickersInv c2 := by
  induction tr generalizing c with
  | nil =>
      simp only [run] at h
      injection h with h
      subst h
      exact hI
  | cons e tr ih =>
      simp only [run] at h
      rcases hs : step c e with _ | c1
      · rw [hs] at h
        exact Option.noConfusion h
      · rw [hs] at h
        exact ih c1 h (step_tickersInv c e c1 hs hI)

/-- C8: with Run invoked at most once, which the model enforces, every
reachable configuration has created at most one ticker: the Run start
performs the single NewTicker call, and every SetInterval step rearms the
existing ticker in place, neither creating a ticker nor discarding an armed
one. -/
theorem C8_single_timer (tm : TokenMonitor) (D : Nat) (tr : List Ev) (c2 : Config)
    (h : run (initConfig tm D) tr = some c2) :
    c2.tickersCreated ≤ 1 ∧
    (∀ c3 d c4, step c3 (Ev.setInterval d) = some c4 →
      c4.tickersCreated = c3.tickersCreated ∧
      c4.tm.ticker.isSome = c3.tm.ticker.isSome) := by
  constructor
  · have hI := run_tickersInv (initConfig tm D) tr c2 h (by simp [tickersInv, initConfig])
    have hI2 : c2.tickersCreated = (if c2.runStarted then 1 else 0) := hI
    rw [hI2]
    split <;> omega
  · intro c3 d c4 h4
    simp only [step] at h4
    split at h4
    · exact Option.noConfusion h4
    · split at h4
      · exact Option.noConfusion h4
      · injection h4 with h4
        subst h4
        refine ⟨rfl, ?_⟩
        rcases hti : c3.tm.ticker with _ | t <;>
          simp [TokenMonitor.SetInterval, hti]

/-- Witness for C8 on the one-event trace that starts Run. -/
theorem C8_single_timer_witness : c8run.tickersCreated ≤ 1 :=
  (C8_single_timer NewTokenMonitor 0 [Ev.runStart] c8run (by decide)).1

/-- C9: when the configured check duration exceeds the interval, more than
one check invocation is in flight simultaneously at some point: under the
prompt schedule, in which the loop consumes each tick as it arrives, the
second tick dispatches its check while the first check, which cannot finish
before its duration has elapsed, is still running; the loop never awaits the
previous dispatch, so neither dispatched goroutine can have ended. -/
theorem C9_overlapping_checks (p D : Nat) (hp : 0 < p) (hD : p < D) :
    ((run (initConfig ((NewTokenMonitor.SetCheckFunc).SetInterval p 0) D)
        (overlapTrace p)).map inFlightChecks = some 2) ∧
    (∀ i, (run (initConfig ((NewTokenMonitor.SetCheckFunc).SetInterval p 0) D)
        (overlapTrace p)).bind (fun c => step c (Ev.taskEnd i)) = none) := by
  have hp0 : ¬ p = 0 := Nat.pos_iff_ne_zero.mp hp
  have hrun : run (initConfig ((NewTokenMonitor.SetCheckFunc).SetInterval p 0) D)
      (overlapTrace p) = some (c9final p D) := by
    simp [overlapTrace, run, step, initConfig, NewTokenMonitor,
      TokenMonitor.SetCheckFunc, TokenMonitor.SetInterval, Config.loopActive,
      c9final, tm9, hp0]
  constructor
  · rw [hrun]
    simp [inFlightChecks, c9final, tm9]
  · intro i
    rw [hrun]
    cases i with
    | zero =>
        simp [step, c9final, tm9, show p + p < p + D from by omega]
    | succ n =>
        cases n with
        | zero =>
            simp [step, c9final, tm9, show p + p < p + p + D from by omega]
        | succ m =>
            simp [step, c9final, tm9]

/-- Witness for C9 at interval one and check duration two. -/
theorem C9_overlapping_checks_witness :
    ((run (initConfig ((NewTokenMonitor.SetCheckFunc).SetInterval 1 0) 2)
        (overlapTrace 1)).map inFlightChecks = some 2) ∧
    ((run (initConfig ((NewTokenMonitor.SetCheckFunc).SetInterval 1 0) 2)
        (overlapTrace 1)).bind (fun c => step c (Ev.taskEnd 0)) = none) :=
  ⟨(C9_overlapping_checks 1 2 (by decide) (by decide)).1,
    (C9_overlapping_checks 1 2 (by decide) (by decide)).2 0⟩

end TokenMonitorModel
